import Mathlib

/-!
Verification of the MyFlowHub-Core hierarchical device registration /
login / revocation / offline protocol.

The development shallowly embeds the Go sources:
* `internal/handler/login.go` (edge auth handler, `LoginHandler`),
* the `login_server` authority handler (`AuthorityHandler`),
* `internal/core/connmgr/manager.go` (connection manager),
and, where the repository ships only the documentation of a component
(the 24-byte frame codec), a model built from the specification text.

Go maps are embedded as association lists whose update operation has
Go's assignment semantics (replace-in-place, append when absent), so
key uniqueness is a provable invariant rather than a construction.
Randomness (credential generation) is supplied by an oracle in the
environment, and external collaborators (server context, connection
manager indexes, the persistent `Store`) are passed as explicit state.
-/

set_option maxHeartbeats 1000000

namespace MyFlowHub

/-! ## Association lists with Go map semantics -/

/-- Lookup of the first entry with the given key. -/
def alookup {α β : Type} [DecidableEq α] (k : α) : List (α × β) → Option β
  | [] => none
  | (k', v) :: rest => if k' = k then some v else alookup k rest

/-- Go map assignment `m[k] = v`: replace in place, append if absent. -/
def aupsert {α β : Type} [DecidableEq α] (k : α) (v : β) : List (α × β) → List (α × β)
  | [] => [(k, v)]
  | (k', v') :: rest => if k' = k then (k, v) :: rest else (k', v') :: aupsert k v rest

/-- Go map deletion `delete(m, k)`. -/
def aerase {α β : Type} [DecidableEq α] (k : α) : List (α × β) → List (α × β)
  | [] => []
  | (k', v') :: rest => if k' = k then rest else (k', v') :: aerase k rest

/-! ## Frame codec

Modelled from the spec: the `internal/core/header` package (frame codec
`HeaderTcpCodec` for the 24-byte `HeaderTcp`) is not among the shipped
sources; only its documentation is. The model follows the documented
layout: TypeFmt (1 byte), Flags (1 byte), then MsgID, SourceID, TargetID,
Timestamp, PayloadLen as big-endian 32-bit words, Reserved (2 bytes,
zero on encode and ignored on decode), followed by PayloadLen payload
bytes; decode rejects PayloadLen above the 16 MiB cap. Bytes are
naturals below 256. -/

/-- Modelled from the spec: the 24-byte frame header (`HeaderTcp`).
The two Reserved bytes are not a field: they must be zero on encode and
are ignored on decode. -/
structure HeaderTcp where
  typeFmt : Nat
  flags : Nat
  msgID : Nat
  sourceID : Nat
  targetID : Nat
  timestamp : Nat
  payloadLen : Nat
deriving DecidableEq, Repr

/-- Field-width validity of a header: one-byte and four-byte fields. -/
def HeaderTcp.Valid (h : HeaderTcp) : Prop :=
  h.typeFmt < 256 ∧ h.flags < 256 ∧ h.msgID < 2 ^ 32 ∧ h.sourceID < 2 ^ 32 ∧
    h.targetID < 2 ^ 32 ∧ h.timestamp < 2 ^ 32 ∧ h.payloadLen < 2 ^ 32

instance (h : HeaderTcp) : Decidable h.Valid := by
  unfold HeaderTcp.Valid
  infer_instance

/-- Big-endian encoding of a 32-bit word into four bytes. -/
def be32 (n : Nat) : List Nat :=
  [n / 2 ^ 24 % 256, n / 2 ^ 16 % 256, n / 2 ^ 8 % 256, n % 256]

/-- Big-endian decoding of four bytes. -/
def dec32 (b0 b1 b2 b3 : Nat) : Nat :=
  b0 * 2 ^ 24 + b1 * 2 ^ 16 + b2 * 2 ^ 8 + b3

/-- Big-endian decoding of two bytes (the Reserved field). -/
def dec16 (b0 b1 : Nat) : Nat :=
  b0 * 2 ^ 8 + b1

/-- The decode-side payload cap of 16 MiB recommended by the spec. -/
def frameCap : Nat := 16 * 1024 * 1024

/-- Modelled from the spec: `encode(header, payload)` emits the 24 header
bytes (Reserved written as two zero bytes) followed by the payload. -/
def encodeFrame (h : HeaderTcp) (p : List Nat) : List Nat :=
  [h.typeFmt, h.flags] ++ be32 h.msgID ++ be32 h.sourceID ++ be32 h.targetID ++
    be32 h.timestamp ++ be32 h.payloadLen ++ [0, 0] ++ p

/-- Modelled from the spec: `decode(reader)` consumes one frame: 24 header
bytes, then exactly PayloadLen payload bytes; PayloadLen above the cap is
rejected, as is a short buffer. Returns the header, the value of the two
Reserved bytes, the payload, and the unconsumed rest of the stream. -/
def decodeFrame : List Nat → Option (HeaderTcp × Nat × List Nat × List Nat)
  | t :: f :: m0 :: m1 :: m2 :: m3 :: s0 :: s1 :: s2 :: s3 ::
      g0 :: g1 :: g2 :: g3 :: u0 :: u1 :: u2 :: u3 :: p0 :: p1 :: p2 :: p3 ::
      r0 :: r1 :: rest =>
    let pl := dec32 p0 p1 p2 p3
    if pl > frameCap then none
    else if rest.length < pl then none
    else
      some (⟨t, f, dec32 m0 m1 m2 m3, dec32 s0 s1 s2 s3, dec32 g0 g1 g2 g3,
              dec32 u0 u1 u2 u3, pl⟩, dec16 r0 r1, rest.take pl, rest.drop pl)
  | _ => none

/-! ## Auth data model (shared by login.go and the authority handler) -/

/-- Go struct `bindingRecord`: a whitelist entry. -/
structure BindingRecord where
  nodeID : Nat
  credential : String
deriving DecidableEq, Repr

/-- Go struct `registerData`. -/
structure RegisterData where
  deviceID : String
deriving DecidableEq, Repr

/-- Go struct `loginData`. -/
structure LoginData where
  deviceID : String
  credential : String
deriving DecidableEq, Repr

/-- Go struct `revokeData`. -/
structure RevokeData where
  deviceID : String
  nodeID : Nat
  credential : String
deriving DecidableEq, Repr

/-- Go struct `queryCredData`. -/
structure QueryCredData where
  deviceID : String
  nodeID : Nat
deriving DecidableEq, Repr

/-- Go struct `offlineData`. -/
structure OfflineData where
  deviceID : String
  nodeID : Nat
  reason : String
deriving DecidableEq, Repr

/-- Go struct `respData`; the defaults are the Go zero values that a decode fills
in for absent JSON fields. -/
structure RespData where
  code : Int := 0
  msg : String := ""
  deviceID : String := ""
  nodeID : Nat := 0
  credential : String := ""
deriving DecidableEq, Repr

/-- The JSON object carried in the envelope's `data` field, abstracted to
the fields the auth structs read. `parseError` models data on which
`json.Unmarshal` fails (invalid JSON or a type-mismatched field); absent
fields decode to the Go zero values. -/
structure JsonData where
  parseError : Bool := false
  code : Option Int := none
  msg : Option String := none
  deviceID : Option String := none
  nodeID : Option Nat := none
  credential : Option String := none
  reason : Option String := none
deriving DecidableEq, Repr

def parseRegisterData (j : JsonData) : Option RegisterData :=
  if j.parseError then none else some ⟨j.deviceID.getD ""⟩

def parseLoginData (j : JsonData) : Option LoginData :=
  if j.parseError then none else some ⟨j.deviceID.getD "", j.credential.getD ""⟩

def parseRevokeData (j : JsonData) : Option RevokeData :=
  if j.parseError then none
  else some ⟨j.deviceID.getD "", j.nodeID.getD 0, j.credential.getD ""⟩

def parseQueryCredData (j : JsonData) : Option QueryCredData :=
  if j.parseError then none else some ⟨j.deviceID.getD "", j.nodeID.getD 0⟩

def parseOfflineData (j : JsonData) : Option OfflineData :=
  if j.parseError then none
  else some ⟨j.deviceID.getD "", j.nodeID.getD 0, j.reason.getD ""⟩

def parseRespData (j : JsonData) : Option RespData :=
  if j.parseError then none
  else some ⟨j.code.getD 0, j.msg.getD "", j.deviceID.getD "", j.nodeID.getD 0,
             j.credential.getD ""⟩

/-- A live connection as the handlers see it: its id and the `role`
metadata stamped by pre-routing. The `nodeID` metadata written by
`saveBinding` via `SetMeta` only feeds the TargetID of later forwarded
headers, which no claim inspects, so connections stay static here. -/
structure Conn where
  id : String
  role : Option String := none
deriving DecidableEq, Repr

/-- The static environment a dispatch runs in: the manager's live
connections in `Range` iteration order, the parsed
`authority.node_id` configuration value (0 when unset or unparsable)
and the randomness oracle behind `generateCredential`. -/
structure Env where
  conns : List Conn := []
  authorityNodeCfg : Nat := 0
  genCred : Nat → String := fun _ => "cred"

/-- The mutable fields of `LoginHandler`. -/
structure LoginState where
  nextID : Nat := 2
  credCounter : Nat := 0
  authNode : Nat := 0
  whitelist : List (String × BindingRecord) := []
  pendingConn : List (String × String) := []
deriving DecidableEq, Repr

/-- The handler state together with the connection-manager secondary
indexes (`nodeID → conn`, `deviceID → conn`). The index-bearing manager
is modelled from the spec (§4.3); `UpdateNodeIndex(n, nil)` stores
`none`. -/
structure World where
  login : LoginState := {}
  nodeIndex : List (Nat × Option String) := []
  deviceIndex : List (String × Option String) := []
deriving DecidableEq, Repr

/-- The forwarded request payload of `LoginHandler.forward`. -/
inductive FwdData where
  | reg (d : RegisterData)
  | login (d : LoginData)
  | offline (d : OfflineData)
deriving DecidableEq, Repr

/-- An observable network emission of a handler dispatch: a `sendResp`
to one connection, a `forward` to the authority/parent, or one
`broadcast` copy. Only the envelope action and data are recorded. -/
inductive Out where
  | resp (connID : String) (action : String) (data : RespData)
  | fwd (connID : String) (action : String) (data : FwdData)
  | bcast (connID : String) (action : String) (data : RevokeData)
deriving DecidableEq, Repr

/-- The `sendResp`-channel outputs (what the requester receives back). -/
def respsOf (outs : List Out) : List Out :=
  outs.filter fun o => match o with
    | .resp _ _ _ => true
    | _ => false

/-! ## Edge auth handler (`LoginHandler`, internal/handler/login.go) -/

/-- Embeds `LoginHandler.saveBinding`: whitelist write plus the index updates
(`UpdateNodeIndex` / `UpdateDeviceIndex` of the spec-modelled manager). -/
def saveBinding (w : World) (conn : Conn) (deviceID : String) (nodeID : Nat)
    (cred : String) : World :=
  { w with
    login := { w.login with whitelist := aupsert deviceID ⟨nodeID, cred⟩ w.login.whitelist }
    nodeIndex := aupsert nodeID (some conn.id) w.nodeIndex
    deviceIndex := aupsert deviceID (some conn.id) w.deviceIndex }

/-- Embeds `LoginHandler.removeBinding`, returning `(whitelist, removed, mismatch)`. -/
def removeBinding (wl : List (String × BindingRecord)) (deviceID cred : String) :
    List (String × BindingRecord) × Bool × Bool :=
  match alookup deviceID wl with
  | none => (wl, false, false)
  | some rec =>
    if cred ≠ "" ∧ rec.credential ≠ cred then (wl, false, true)
    else (aerase deviceID wl, true, false)

/-- Embeds `LoginHandler.removeIndexes`: null the node index entry for a
nonzero node id. -/
def removeIndexes (w : World) (nodeID : Nat) : World :=
  if nodeID ≠ 0 then { w with nodeIndex := aupsert nodeID none w.nodeIndex } else w

/-- Embeds `LoginHandler.lookup`. -/
def lookupWl (w : World) (deviceID : String) : Option BindingRecord :=
  alookup deviceID w.login.whitelist

/-- Embeds `LoginHandler.ensureNodeID`: the whitelisted node id when present,
else one drawn from the uint32 counter (`nextID.Add(1) - 1`). -/
def ensureNodeID (w : World) (deviceID : String) : World × Nat :=
  match alookup deviceID w.login.whitelist with
  | some rec => (w, rec.nodeID)
  | none =>
    ({ w with login := { w.login with nextID := (w.login.nextID + 1) % 2 ^ 32 } },
     w.login.nextID % 2 ^ 32)

/-- Embeds `LoginHandler.ensureCredential`: the whitelisted credential when
present and nonempty, else a fresh draw from the randomness oracle
(`generateCredential`). -/
def ensureCredential (env : Env) (w : World) (deviceID : String) : World × String :=
  match alookup deviceID w.login.whitelist with
  | some rec =>
    if rec.credential ≠ "" then (w, rec.credential)
    else ({ w with login := { w.login with credCounter := w.login.credCounter + 1 } },
          env.genCred w.login.credCounter)
  | none =>
    ({ w with login := { w.login with credCounter := w.login.credCounter + 1 } },
     env.genCred w.login.credCounter)

/-- Embeds `LoginHandler.setPending`: Go map assignment, so a newer request
replaces the previous pending entry of the same device. -/
def setPending (w : World) (deviceID connID : String) : World :=
  { w with login := { w.login with pendingConn := aupsert deviceID connID w.login.pendingConn } }

/-- Embeds `LoginHandler.popPending`. -/
def popPending (w : World) (deviceID : String) : World × Option String :=
  match alookup deviceID w.login.pendingConn with
  | some id =>
    ({ w with login := { w.login with pendingConn := aerase deviceID w.login.pendingConn } },
     some id)
  | none => (w, none)

/-- Embeds `findParentConnLogin`: the first connection in `Range` order with
role metadata `parent`. -/
def findParentConnLogin (conns : List Conn) : Option Conn :=
  conns.find? fun c => c.role == some "parent"

/-- Embeds `ConnManager().Get` by connection id. -/
def findConn (env : Env) (connID : String) : Option Conn :=
  env.conns.find? fun c => c.id == connID

/-- Embeds `ConnManager().GetByNode` of the index-bearing manager, modelled
from the spec: follow the node index to a live connection. -/
def getByNode (env : Env) (w : World) (nodeID : Nat) : Option Conn :=
  match alookup nodeID w.nodeIndex with
  | some (some cid) => findConn env cid
  | _ => none

/-- The `h.authNode` caching at the head of `selectAuthority`: adopt the
configured authority node id on first use. -/
def selectAuthorityState (env : Env) (w : World) : World :=
  if w.login.authNode = 0 ∧ env.authorityNodeCfg ≠ 0 then
    { w with login := { w.login with authNode := env.authorityNodeCfg } }
  else w

/-- Embeds `LoginHandler.selectAuthority`: cache the configured authority node
id on first use, prefer the connection indexed under it, else fall back
to the first parent-role connection. -/
def selectAuthority (env : Env) (w : World) : World × Option Conn :=
  let w := selectAuthorityState env w
  if w.login.authNode ≠ 0 then
    match getByNode env w w.login.authNode with
    | some c => (w, some c)
    | none => (w, findParentConnLogin env.conns)
  else (w, findParentConnLogin env.conns)

/-- Embeds `LoginHandler.selectAuthorityConn` (parent fallback only). -/
def selectAuthorityConn (env : Env) : Option Conn :=
  findParentConnLogin env.conns

/-- Embeds `LoginHandler.handleRegister` (login.go:144-180). Note the malformed
branch answers with the plain `register_resp` action even when
`assisted`, and the assisted branch never persists a binding. -/
def handleRegister (env : Env) (w : World) (conn : Conn) (data : JsonData)
    (assisted : Bool) : World × List Out :=
  match parseRegisterData data with
  | none => (w, [.resp conn.id "register_resp" { code := 400, msg := "invalid register data" }])
  | some req =>
    if req.deviceID = "" then
      (w, [.resp conn.id "register_resp" { code := 400, msg := "invalid register data" }])
    else if assisted then
      let en := ensureNodeID w req.deviceID
      let ec := ensureCredential env en.1 req.deviceID
      (ec.1, [.resp conn.id "assist_register_resp"
            { code := 1, msg := "ok", deviceID := req.deviceID, nodeID := en.2,
              credential := ec.2 }])
    else
      let sa := selectAuthority env w
      match sa.2 with
      | some authority =>
        let w := setPending sa.1 req.deviceID conn.id
        (w, [.fwd authority.id "assist_register" (.reg req)])
      | none =>
        let en := ensureNodeID sa.1 req.deviceID
        let ec := ensureCredential env en.1 req.deviceID
        let w := saveBinding ec.1 conn req.deviceID en.2 ec.2
        (w, [.resp conn.id "register_resp"
              { code := 1, msg := "ok", deviceID := req.deviceID, nodeID := en.2,
                credential := ec.2 }])

/-- Embeds `LoginHandler.handleRegisterResp` (login.go:182-202). -/
def handleRegisterResp (env : Env) (w : World) (data : JsonData) : World × List Out :=
  match parseRespData data with
  | none => (w, [])
  | some resp =>
    if resp.deviceID = "" then (w, [])
    else
      let pp := popPending w resp.deviceID
      match pp.2 with
      | none => (pp.1, [])
      | some connID =>
        match findConn env connID with
        | some c =>
          let w := saveBinding pp.1 c resp.deviceID resp.nodeID resp.credential
          (w, [.resp c.id "register_resp" resp])
        | none => (pp.1, [])

/-- Embeds `LoginHandler.handleLogin` (login.go:205-244). The malformed branch
answers with the plain `login_resp` action even when `assisted`. -/
def handleLogin (env : Env) (w : World) (conn : Conn) (data : JsonData)
    (assisted : Bool) : World × List Out :=
  match parseLoginData data with
  | none => (w, [.resp conn.id "login_resp" { code := 400, msg := "invalid login data" }])
  | some req =>
    if req.deviceID = "" then
      (w, [.resp conn.id "login_resp" { code := 400, msg := "invalid login data" }])
    else if assisted then
      match lookupWl w req.deviceID with
      | some rec =>
        if rec.credential = req.credential then
          (w, [.resp conn.id "assist_login_resp"
                { code := 1, msg := "ok", deviceID := req.deviceID, nodeID := rec.nodeID,
                  credential := rec.credential }])
        else (w, [.resp conn.id "assist_login_resp" { code := 4001, msg := "invalid credential" }])
      | none => (w, [.resp conn.id "assist_login_resp" { code := 4001, msg := "invalid credential" }])
    else
      match lookupWl w req.deviceID with
      | some rec =>
        if rec.credential = req.credential then
          let w := saveBinding w conn req.deviceID rec.nodeID rec.credential
          (w, [.resp conn.id "login_resp"
                { code := 1, msg := "ok", deviceID := req.deviceID, nodeID := rec.nodeID,
                  credential := rec.credential }])
        else (w, [.resp conn.id "login_resp" { code := 4001, msg := "invalid credential" }])
      | none =>
        let sa := selectAuthority env w
        match sa.2 with
        | some authority =>
          let w := setPending sa.1 req.deviceID conn.id
          (w, [.fwd authority.id "assist_login" (.login req)])
        | none =>
          (sa.1, [.resp conn.id "login_resp" { code := 4001, msg := "invalid credential" }])

/-- Embeds `LoginHandler.handleLoginResp` (login.go:246-268). -/
def handleLoginResp (env : Env) (w : World) (data : JsonData) : World × List Out :=
  match parseRespData data with
  | none => (w, [])
  | some resp =>
    if resp.deviceID = "" then (w, [])
    else
      let pp := popPending w resp.deviceID
      match pp.2 with
      | none => (pp.1, [])
      | some connID =>
        match findConn env connID with
        | some c =>
          let w :=
            if resp.code = 1 then saveBinding pp.1 c resp.deviceID resp.nodeID resp.credential
            else pp.1
          (w, [.resp c.id "login_resp" resp])
        | none => (pp.1, [])

/-- Embeds `LoginHandler.handleRevoke` (login.go:271-287): local delete, respond
only on delete or mismatch, then rebroadcast to everyone but the source. -/
def handleRevoke (env : Env) (w : World) (conn : Conn) (data : JsonData) :
    World × List Out :=
  match parseRevokeData data with
  | none => (w, [])
  | some req =>
    if req.deviceID = "" then (w, [])
    else
      let er := removeBinding w.login.whitelist req.deviceID req.credential
      let w := { w with login := { w.login with whitelist := er.1 } }
      let resps :=
        if er.2.1 || er.2.2 then
          if er.2.2 then
            [Out.resp conn.id "revoke_resp"
              { code := 4402, msg := "credential mismatch", deviceID := req.deviceID,
                nodeID := req.nodeID }]
          else
            [Out.resp conn.id "revoke_resp"
              { code := 1, msg := "ok", deviceID := req.deviceID, nodeID := req.nodeID }]
        else []
      let bcasts := (env.conns.filter fun c => c.id != conn.id).map
        fun c => Out.bcast c.id "revoke" req
      (w, resps ++ bcasts)

/-- Embeds `LoginHandler.handleAssistQuery` (login.go:290-301). -/
def handleAssistQuery (w : World) (conn : Conn) (data : JsonData) : World × List Out :=
  match parseQueryCredData data with
  | none => (w, [.resp conn.id "assist_query_credential_resp" { code := 400, msg := "invalid query" }])
  | some req =>
    if req.deviceID = "" then
      (w, [.resp conn.id "assist_query_credential_resp" { code := 400, msg := "invalid query" }])
    else
      match lookupWl w req.deviceID with
      | some rec =>
        (w, [.resp conn.id "assist_query_credential_resp"
              { code := 1, msg := "ok", deviceID := req.deviceID, nodeID := rec.nodeID,
                credential := rec.credential }])
      | none => (w, [.resp conn.id "assist_query_credential_resp" { code := 4001, msg := "not found" }])

/-- Embeds `LoginHandler.handleAssistQueryResp` (login.go:303-327). -/
def handleAssistQueryResp (env : Env) (w : World) (data : JsonData) : World × List Out :=
  match parseRespData data with
  | none => (w, [])
  | some resp =>
    if resp.deviceID = "" then (w, [])
    else
      let pp := popPending w resp.deviceID
      match pp.2 with
      | none => (pp.1, [])
      | some connID =>
        match findConn env connID with
        | some c =>
          if resp.code = 1 then
            let w := saveBinding pp.1 c resp.deviceID resp.nodeID resp.credential
            (w, [.resp c.id "login_resp"
                  { code := 1, msg := "ok", deviceID := resp.deviceID, nodeID := resp.nodeID,
                    credential := resp.credential }])
          else (pp.1, [.resp c.id "login_resp" { code := resp.code, msg := resp.msg }])
        | none => (pp.1, [])

/-- Embeds `LoginHandler.handleOffline` (login.go:330-343): unconditional local
delete, null the node index, forward to the parent as `assist_offline`
only for the non-assisted action; never respond. -/
def handleOffline (env : Env) (w : World) (conn : Conn) (data : JsonData)
    (assisted : Bool) : World × List Out :=
  match parseOfflineData data with
  | none => (w, [])
  | some req =>
    if req.deviceID = "" then (w, [])
    else
      let er := removeBinding w.login.whitelist req.deviceID ""
      let w := { w with login := { w.login with whitelist := er.1 } }
      let w := removeIndexes w req.nodeID
      if assisted then (w, [])
      else
        match selectAuthorityConn env with
        | some parent =>
          if parent.id ≠ conn.id then (w, [.fwd parent.id "assist_offline" (.offline req)])
          else (w, [])
        | none => (w, [])

/-- ASCII whitespace, as far as action names are concerned. -/
def isSpaceChar (c : Char) : Bool := c = ' ' || c = '\t' || c = '\n' || c = '\r'

def dropLeadingSpace : List Char → List Char
  | [] => []
  | c :: rest => if isSpaceChar c then dropLeadingSpace rest else c :: rest

/-- Trim leading and trailing whitespace from a character list. -/
def trimCharList (l : List Char) : List Char :=
  (dropLeadingSpace (dropLeadingSpace l.reverse).reverse)

/-- Lower-case an ASCII letter. -/
def asciiLower (c : Char) : Char :=
  if 'A' ≤ c ∧ c ≤ 'Z' then Char.ofNat (c.toNat + 32) else c

/-- Embeds `strings.ToLower(strings.TrimSpace(action))` (the protocol's action
names are ASCII, so ASCII trimming and lower-casing model the Go
functions exactly on the inputs that occur). -/
def normalizeAction (s : String) : String := ⟨(trimCharList s.data).map asciiLower⟩

/-- Embeds `LoginHandler.OnReceive` (login.go:108-141): the action switch. A
`none` frame models a payload on which the envelope `json.Unmarshal`
fails. The switch has no case for `assist_register_resp` or
`assist_login_resp`; those actions fall through to the default branch. -/
def loginOnReceive (env : Env) (w : World) (conn : Conn)
    (frame : Option (String × JsonData)) : World × List Out :=
  match frame with
  | none => (w, [])
  | some (action, data) =>
    let act := normalizeAction action
    if act = "register" then handleRegister env w conn data false
    else if act = "assist_register" then handleRegister env w conn data true
    else if act = "register_resp" then handleRegisterResp env w data
    else if act = "login" then handleLogin env w conn data false
    else if act = "assist_login" then handleLogin env w conn data true
    else if act = "login_resp" then handleLoginResp env w data
    else if act = "revoke" then handleRevoke env w conn data
    else if act = "assist_query_credential" then handleAssistQuery w conn data
    else if act = "assist_query_credential_resp" then handleAssistQueryResp env w data
    else if act = "offline" then handleOffline env w conn data false
    else if act = "assist_offline" then handleOffline env w conn data true
    else (w, [])

/-! ## Authority auth handler (`AuthorityHandler`, package login_server) -/

/-- The outcome of one Store call: a value or a transport-level error. -/
inductive StoreResult (A : Type) where
  | ok (val : A)
  | err
deriving DecidableEq, Repr

/-- The external `Store` interface the authority handler consumes, as a
state machine over a store state `σ`:
`UpsertDevice → (node_id, credential)`,
`GetDevice → (node_id, credential, found)`,
`DeleteDevice → (node_id, removed, mismatch)`. -/
structure StoreImpl (σ : Type) where
  upsertDevice : σ → String → σ × StoreResult (Nat × String)
  getDevice : σ → String → σ × StoreResult (Nat × String × Bool)
  deleteDevice : σ → String → String → σ × StoreResult (Nat × Bool × Bool)

/-- Embeds `chooseAction`. -/
def chooseAction (assisted : Bool) (assistedAct normalAct : String) : String :=
  if assisted then assistedAct else normalAct

/-- The in-memory cache of `AuthorityHandler`. -/
abbrev AuthCache := List (String × BindingRecord)

/-- Embeds `AuthorityHandler.handleRegister`: upsert through the Store, remember
in the cache, answer `chooseAction(assisted, assist_register_resp,
register_resp)`; a Store error is answered with code 500. -/
def authHandleRegister {σ : Type} (S : StoreImpl σ) (store : σ) (cache : AuthCache)
    (conn : Conn) (data : JsonData) (assisted : Bool) : σ × AuthCache × List Out :=
  let act := chooseAction assisted "assist_register_resp" "register_resp"
  match parseRegisterData data with
  | none => (store, cache, [.resp conn.id act { code := 400, msg := "invalid register data" }])
  | some req =>
    if req.deviceID = "" then
      (store, cache, [.resp conn.id act { code := 400, msg := "invalid register data" }])
    else
      let up := S.upsertDevice store req.deviceID
      match up.2 with
      | .err => (up.1, cache, [.resp conn.id act { code := 500, msg := "internal error" }])
      | .ok (nodeID, cred) =>
        (up.1, aupsert req.deviceID ⟨nodeID, cred⟩ cache,
         [.resp conn.id act
           { code := 1, msg := "ok", deviceID := req.deviceID, nodeID := nodeID,
             credential := cred }])

/-- Embeds `AuthorityHandler.handleLogin`: cache lookup, else `Store.GetDevice`
(remembering a hit); credential comparison; Store error answered with
code 500. -/
def authHandleLogin {σ : Type} (S : StoreImpl σ) (store : σ) (cache : AuthCache)
    (conn : Conn) (data : JsonData) (assisted : Bool) : σ × AuthCache × List Out :=
  let act := chooseAction assisted "assist_login_resp" "login_resp"
  match parseLoginData data with
  | none => (store, cache, [.resp conn.id act { code := 400, msg := "invalid login data" }])
  | some req =>
    if req.deviceID = "" then
      (store, cache, [.resp conn.id act { code := 400, msg := "invalid login data" }])
    else
      match alookup req.deviceID cache with
      | some rec =>
        if rec.credential ≠ req.credential then
          (store, cache, [.resp conn.id act { code := 4001, msg := "invalid credential" }])
        else
          (store, cache, [.resp conn.id act
            { code := 1, msg := "ok", deviceID := req.deviceID, nodeID := rec.nodeID,
              credential := rec.credential }])
      | none =>
        let gt := S.getDevice store req.deviceID
        match gt.2 with
        | .err => (gt.1, cache, [.resp conn.id act { code := 500, msg := "internal error" }])
        | .ok (nodeID, cred, found) =>
          if !found then
            (gt.1, cache, [.resp conn.id act { code := 4001, msg := "invalid credential" }])
          else
            let cache := aupsert req.deviceID ⟨nodeID, cred⟩ cache
            if cred ≠ req.credential then
              (gt.1, cache, [.resp conn.id act { code := 4001, msg := "invalid credential" }])
            else
              (gt.1, cache, [.resp conn.id act
                { code := 1, msg := "ok", deviceID := req.deviceID, nodeID := nodeID,
                  credential := cred }])

/-- Embeds `AuthorityHandler.handleAssistQuery`: cache, else Store; the reply
carries the credential on a hit, 4001 on a miss, 500 on a Store error. -/
def authHandleAssistQuery {σ : Type} (S : StoreImpl σ) (store : σ) (cache : AuthCache)
    (conn : Conn) (data : JsonData) : σ × AuthCache × List Out :=
  match parseQueryCredData data with
  | none => (store, cache, [.resp conn.id "assist_query_credential_resp" { code := 400, msg := "invalid query" }])
  | some req =>
    if req.deviceID = "" then
      (store, cache, [.resp conn.id "assist_query_credential_resp" { code := 400, msg := "invalid query" }])
    else
      match alookup req.deviceID cache with
      | some rec =>
        (store, cache, [.resp conn.id "assist_query_credential_resp"
          { code := 1, msg := "ok", deviceID := req.deviceID, nodeID := rec.nodeID,
            credential := rec.credential }])
      | none =>
        let gt := S.getDevice store req.deviceID
        match gt.2 with
        | .err => (gt.1, cache, [.resp conn.id "assist_query_credential_resp" { code := 500, msg := "internal error" }])
        | .ok (nodeID, cred, found) =>
          if !found then
            (gt.1, cache, [.resp conn.id "assist_query_credential_resp" { code := 4001, msg := "not found" }])
          else
            (gt.1, aupsert req.deviceID ⟨nodeID, cred⟩ cache,
             [.resp conn.id "assist_query_credential_resp"
               { code := 1, msg := "ok", deviceID := req.deviceID, nodeID := nodeID,
                 credential := cred }])

/-- Embeds `AuthorityHandler.handleRevoke`: `Store.DeleteDevice`, then forget the
cache entry; 4402 on mismatch, 1 on removal, silence when not found —
and silence (an early return after logging) on a Store error. -/
def authHandleRevoke {σ : Type} (S : StoreImpl σ) (store : σ) (cache : AuthCache)
    (conn : Conn) (data : JsonData) : σ × AuthCache × List Out :=
  match parseRevokeData data with
  | none => (store, cache, [])
  | some req =>
    if req.deviceID = "" then (store, cache, [])
    else
      let dl := S.deleteDevice store req.deviceID req.credential
      match dl.2 with
      | .err => (dl.1, cache, [])
      | .ok (nodeID, removed, mismatch) =>
        let cache := aerase req.deviceID cache
        if mismatch then
          (dl.1, cache, [.resp conn.id "revoke_resp"
            { code := 4402, msg := "credential mismatch", deviceID := req.deviceID,
              nodeID := nodeID }])
        else if removed then
          (dl.1, cache, [.resp conn.id "revoke_resp"
            { code := 1, msg := "ok", deviceID := req.deviceID, nodeID := nodeID }])
        else (dl.1, cache, [])

/-- Embeds `AuthorityHandler.handleOffline`: evict the cache entry, never
respond (the payload is decoded with the revoke struct). -/
def authHandleOffline (cache : AuthCache) (data : JsonData) : AuthCache :=
  match parseRevokeData data with
  | none => cache
  | some req => if req.deviceID = "" then cache else aerase req.deviceID cache

/-- Embeds `AuthorityHandler.OnReceive`: the authority-side action switch. -/
def authOnReceive {σ : Type} (S : StoreImpl σ) (store : σ) (cache : AuthCache)
    (conn : Conn) (frame : Option (String × JsonData)) : σ × AuthCache × List Out :=
  match frame with
  | none => (store, cache, [])
  | some (action, data) =>
    let act := normalizeAction action
    if act = "register" then authHandleRegister S store cache conn data false
    else if act = "assist_register" then authHandleRegister S store cache conn data true
    else if act = "login" then authHandleLogin S store cache conn data false
    else if act = "assist_login" then authHandleLogin S store cache conn data true
    else if act = "assist_query_credential" then authHandleAssistQuery S store cache conn data
    else if act = "revoke" then authHandleRevoke S store cache conn data
    else if act = "offline" ∨ act = "assist_offline" then (store, authHandleOffline cache data, [])
    else (store, cache, [])

/-- Modelled from the spec: the external persistent Store (§6) —
`UpsertDevice` assigns a unique node id and a fresh credential on first
registration and returns both unchanged on re-register; `GetDevice` and
`DeleteDevice` behave as documented; no call fails. -/
structure SpecStore where
  next : Nat := 2
  credCounter : Nat := 0
  genCred : Nat → String := fun n => "store-cred-" ++ toString n
  table : List (String × BindingRecord) := []

/-- Modelled from the spec: the Store operations over `SpecStore`. -/
def specStoreImpl : StoreImpl SpecStore where
  upsertDevice s d :=
    match alookup d s.table with
    | some r => (s, .ok (r.nodeID, r.credential))
    | none =>
      let r : BindingRecord := ⟨s.next, s.genCred s.credCounter⟩
      ({ s with next := s.next + 1, credCounter := s.credCounter + 1,
                table := aupsert d r s.table },
       .ok (r.nodeID, r.credential))
  getDevice s d :=
    match alookup d s.table with
    | some r => (s, .ok (r.nodeID, r.credential, true))
    | none => (s, .ok (0, "", false))
  deleteDevice s d cred :=
    match alookup d s.table with
    | none => (s, .ok (0, false, false))
    | some r =>
      if cred ≠ "" ∧ r.credential ≠ cred then (s, .ok (r.nodeID, false, true))
      else ({ s with table := aerase d s.table }, .ok (r.nodeID, true, false))

/-- A Store whose every call fails with a transport-level error, to probe
the handler's error paths. -/
def errStoreImpl : StoreImpl Unit where
  upsertDevice s _ := (s, .err)
  getDevice s _ := (s, .err)
  deleteDevice s _ _ := (s, .err)

/-! ## Connection manager (internal/core/connmgr/manager.go) -/

/-- The manager's map `connID → conn`; connection objects are abstracted
to an opaque numeric handle. -/
structure MgrState where
  conns : List (String × Nat) := []
deriving DecidableEq, Repr

/-- Hook firings and closes observable from one manager call. -/
inductive MgrEvent where
  | onAdd (handle : Nat)
  | onRemove (handle : Nat)
  | closed (handle : Nat)
deriving DecidableEq, Repr

/-- Embeds `Manager.Add` (manager.go:28-44): a duplicate id is rejected before
the map write and the `OnAdd` hook fires only on success. The middle
component is the returned error, `none` on success. -/
def mgrAdd (m : MgrState) (id : String) (handle : Nat) :
    MgrState × Option String × List MgrEvent :=
  if (alookup id m.conns).isSome then (m, some "conn exists", [])
  else ({ conns := aupsert id handle m.conns }, none, [.onAdd handle])

/-- Embeds `Manager.Remove` (manager.go:46-60): an unknown id returns an error
without firing `OnRemove` or closing anything; a found connection is
deleted from the map, the hook fires and the connection is closed. -/
def mgrRemove (m : MgrState) (id : String) :
    MgrState × Option String × List MgrEvent :=
  match alookup id m.conns with
  | none => (m, some "conn not found", [])
  | some handle => ({ conns := aerase id m.conns }, none, [.onRemove handle, .closed handle])

/-! ## Dispatch traces of the edge handler -/

/-- One dispatched frame: the environment it runs in, the source
connection, and the envelope-parsed frame (`none` = invalid payload). -/
structure StepInput where
  env : Env
  conn : Conn
  frame : Option (String × JsonData)

/-- The `LoginHandler` world after a sequence of dispatches. -/
def runTrace (w : World) : List StepInput → World
  | [] => w
  | i :: rest => runTrace (loginOnReceive i.env w i.conn i.frame).1 rest

/-- The freshly constructed handler (`NewLoginHandler`): empty whitelist
and pending table, node counter seeded at 2. -/
def initialWorld : World := {}

/-- One dispatch changes a Go map either not at all, by one assignment,
or by one deletion. -/
def MapEvolves {α β : Type} [DecidableEq α] (m m' : List (α × β)) : Prop :=
  m' = m ∨ (∃ k v, m' = aupsert k v m) ∨ ∃ k, m' = aerase k m

/-! ## JSON images of well-formed request/response structs -/

def regJson (r : RegisterData) : JsonData :=
  { deviceID := some r.deviceID }

def loginJson (r : LoginData) : JsonData :=
  { deviceID := some r.deviceID, credential := some r.credential }

def revokeJson (r : RevokeData) : JsonData :=
  { deviceID := some r.deviceID, nodeID := some r.nodeID, credential := some r.credential }

def respJson (r : RespData) : JsonData :=
  { code := some r.code, msg := some r.msg, deviceID := some r.deviceID,
    nodeID := some r.nodeID, credential := some r.credential }

def offlineJson (r : OfflineData) : JsonData :=
  { deviceID := some r.deviceID, nodeID := some r.nodeID, reason := some r.reason }

/-! ## Concrete fixtures used by witnesses and counterexamples -/

def connDev : Conn := { id := "conn-dev" }
def connDev2 : Conn := { id := "conn-dev2" }
def connParent : Conn := { id := "conn-parent", role := some "parent" }

def envNoParent : Env := { conns := [connDev] }
def envWithParent : Env := { conns := [connDev, connParent] }
def envParentOnly : Env := { conns := [connParent] }

/-- A world with `dev-1` pending from `conn-dev` (an assist forward in
flight). -/
def pendingWorld : World := { login := { pendingConn := [("dev-1", "conn-dev")] } }

/-- A world with `dev-1` bound in the local whitelist. -/
def boundWorld : World := { login := { whitelist := [("dev-1", ⟨7, "tok-7"⟩)] } }

/-- A world with a bound device and a populated node index, for the
offline flow. -/
def offlineWorld : World :=
  { login := { whitelist := [("dev-1", ⟨5, "tok-5"⟩)] },
    nodeIndex := [(5, some "conn-dev")] }

/-! ## Association-list lemmas -/

theorem alookup_aupsert_self {α β : Type} [DecidableEq α] (k : α) (v : β) (l : List (α × β)) :
    alookup k (aupsert k v l) = some v := by
  induction l with
  | nil => simp [aupsert, alookup]
  | cons hd tl ih =>
    obtain ⟨k', v'⟩ := hd
    by_cases h : k' = k <;> simp [aupsert, alookup, h, ih]

theorem alookup_aupsert_ne {α β : Type} [DecidableEq α] {k j : α} (v : β) (l : List (α × β))
    (h : j ≠ k) : alookup j (aupsert k v l) = alookup j l := by
  induction l with
  | nil =>
    simp only [aupsert, alookup]
    rw [if_neg (Ne.symm h)]
  | cons hd tl ih =>
    obtain ⟨k', v'⟩ := hd
    by_cases hk : k' = k
    · subst hk
      simp only [aupsert, if_pos rfl, alookup]
      rw [if_neg (Ne.symm h), if_neg (Ne.symm h)]
    · simp only [aupsert, if_neg hk, alookup]
      by_cases hj : k' = j
      · rw [if_pos hj, if_pos hj]
      · rw [if_neg hj, if_neg hj, ih]

theorem alookup_eq_none_of_not_mem_keys {α β : Type} [DecidableEq α] {k : α} {l : List (α × β)}
    (h : k ∉ l.map Prod.fst) : alookup k l = none := by
  induction l with
  | nil => rfl
  | cons hd tl ih =>
    obtain ⟨k', v'⟩ := hd
    simp only [List.map_cons, List.mem_cons, not_or] at h
    simp only [alookup]
    rw [if_neg (Ne.symm h.1)]
    exact ih h.2

theorem alookup_aerase_self {α β : Type} [DecidableEq α] (k : α) (l : List (α × β))
    (hnd : (l.map Prod.fst).Nodup) : alookup k (aerase k l) = none := by
  induction l with
  | nil => rfl
  | cons hd tl ih =>
    obtain ⟨k', v'⟩ := hd
    simp only [List.map_cons, List.nodup_cons] at hnd
    by_cases h : k' = k
    · subst h
      simp only [aerase, if_pos rfl]
      exact alookup_eq_none_of_not_mem_keys hnd.1
    · simp only [aerase, if_neg h, alookup, if_neg h]
      exact ih hnd.2

theorem mem_keys_aupsert {α β : Type} [DecidableEq α] (j k : α) (v : β) (l : List (α × β)) :
    j ∈ (aupsert k v l).map Prod.fst ↔ j = k ∨ j ∈ l.map Prod.fst := by
  induction l with
  | nil => simp [aupsert]
  | cons hd tl ih =>
    obtain ⟨k', v'⟩ := hd
    by_cases h : k' = k
    · subst h
      simp [aupsert]
    · simp only [aupsert, if_neg h, List.map_cons, List.mem_cons, ih]
      tauto

theorem nodup_keys_aupsert {α β : Type} [DecidableEq α] (k : α) (v : β) (l : List (α × β))
    (hnd : (l.map Prod.fst).Nodup) : ((aupsert k v l).map Prod.fst).Nodup := by
  induction l with
  | nil => simp [aupsert]
  | cons hd tl ih =>
    obtain ⟨k', v'⟩ := hd
    simp only [List.map_cons, List.nodup_cons] at hnd
    by_cases h : k' = k
    · subst h
      simpa [aupsert, List.nodup_cons] using hnd
    · simp only [aupsert, if_neg h, List.map_cons, List.nodup_cons]
      refine ⟨?_, ih hnd.2⟩
      rw [mem_keys_aupsert]
      rintro (he | he)
      · exact h he
      · exact hnd.1 he

theorem keys_aerase_sublist {α β : Type} [DecidableEq α] (k : α) (l : List (α × β)) :
    ((aerase k l).map Prod.fst).Sublist (l.map Prod.fst) := by
  induction l with
  | nil => simp [aerase]
  | cons hd tl ih =>
    obtain ⟨k', v'⟩ := hd
    by_cases h : k' = k
    · simp only [aerase, if_pos h, List.map_cons]
      exact (List.sublist_cons_self _ _)
    · simp only [aerase, if_neg h, List.map_cons]
      exact ih.cons₂ k'

theorem nodup_keys_aerase {α β : Type} [DecidableEq α] (k : α) (l : List (α × β))
    (hnd : (l.map Prod.fst).Nodup) : ((aerase k l).map Prod.fst).Nodup :=
  (keys_aerase_sublist k l).nodup hnd

/-! ## Codec lemmas -/

theorem dec32_be32 (n : Nat) (hn : n < 2 ^ 32) :
    dec32 (n / 2 ^ 24 % 256) (n / 2 ^ 16 % 256) (n / 2 ^ 8 % 256) (n % 256) = n := by
  unfold dec32
  omega

theorem encodeFrame_length (h : HeaderTcp) (p : List Nat) :
    (encodeFrame h p).length = 24 + p.length := by
  simp [encodeFrame, be32]
  omega

theorem decodeFrame_encodeFrame (h : HeaderTcp) (p : List Nat)
    (hv : h.Valid) (hlen : p.length = h.payloadLen) (hcap : h.payloadLen ≤ frameCap) :
    decodeFrame (encodeFrame h p) = some (h, 0, p, []) := by
  obtain ⟨-, -, h2, h3, h4, h5, h6⟩ := hv
  show decodeFrame
      (h.typeFmt :: h.flags ::
        (h.msgID / 2 ^ 24 % 256) :: (h.msgID / 2 ^ 16 % 256) ::
        (h.msgID / 2 ^ 8 % 256) :: (h.msgID % 256) ::
        (h.sourceID / 2 ^ 24 % 256) :: (h.sourceID / 2 ^ 16 % 256) ::
        (h.sourceID / 2 ^ 8 % 256) :: (h.sourceID % 256) ::
        (h.targetID / 2 ^ 24 % 256) :: (h.targetID / 2 ^ 16 % 256) ::
        (h.targetID / 2 ^ 8 % 256) :: (h.targetID % 256) ::
        (h.timestamp / 2 ^ 24 % 256) :: (h.timestamp / 2 ^ 16 % 256) ::
        (h.timestamp / 2 ^ 8 % 256) :: (h.timestamp % 256) ::
        (h.payloadLen / 2 ^ 24 % 256) :: (h.payloadLen / 2 ^ 16 % 256) ::
        (h.payloadLen / 2 ^ 8 % 256) :: (h.payloadLen % 256) :: 0 :: 0 :: p) = _
  rw [decodeFrame]
  rw [dec32_be32 h.msgID h2, dec32_be32 h.sourceID h3, dec32_be32 h.targetID h4,
    dec32_be32 h.timestamp h5, dec32_be32 h.payloadLen h6]
  rw [if_neg (by omega), if_neg (by omega)]
  simp only [hlen.symm, List.take_length, List.drop_length, dec16]
  rw [hlen]
  norm_num

/-! ## Handler state-evolution lemmas -/

theorem selectAuthorityState_login_maps (env : Env) (w : World) :
    (selectAuthorityState env w).login.pendingConn = w.login.pendingConn ∧
    (selectAuthorityState env w).login.whitelist = w.login.whitelist := by
  unfold selectAuthorityState
  split <;> exact ⟨rfl, rfl⟩

theorem selectAuthority_fst (env : Env) (w : World) :
    (selectAuthority env w).1 = selectAuthorityState env w := by
  unfold selectAuthority
  dsimp only
  split
  · split <;> rfl
  · rfl

theorem ensureNodeID_state (w : World) (d : String) :
    (ensureNodeID w d).1.login.pendingConn = w.login.pendingConn ∧
    (ensureNodeID w d).1.login.whitelist = w.login.whitelist ∧
    (ensureNodeID w d).1.login.authNode = w.login.authNode := by
  unfold ensureNodeID
  split <;> exact ⟨rfl, rfl, rfl⟩

theorem ensureCredential_state (env : Env) (w : World) (d : String) :
    (ensureCredential env w d).1.login.pendingConn = w.login.pendingConn ∧
    (ensureCredential env w d).1.login.whitelist = w.login.whitelist ∧
    (ensureCredential env w d).1.login.authNode = w.login.authNode := by
  unfold ensureCredential
  split
  · split <;> exact ⟨rfl, rfl, rfl⟩
  · exact ⟨rfl, rfl, rfl⟩

theorem saveBinding_state (w : World) (conn : Conn) (d : String) (n : Nat) (c : String) :
    (saveBinding w conn d n c).login.pendingConn = w.login.pendingConn ∧
    (saveBinding w conn d n c).login.whitelist = aupsert d ⟨n, c⟩ w.login.whitelist ∧
    (saveBinding w conn d n c).login.authNode = w.login.authNode :=
  ⟨rfl, rfl, rfl⟩

theorem setPending_state (w : World) (d c : String) :
    (setPending w d c).login.pendingConn = aupsert d c w.login.pendingConn ∧
    (setPending w d c).login.whitelist = w.login.whitelist ∧
    (setPending w d c).login.authNode = w.login.authNode :=
  ⟨rfl, rfl, rfl⟩

theorem popPending_state (w : World) (d : String) :
    ((popPending w d).1 = w ∧ (popPending w d).2 = none) ∨
    ((popPending w d).1.login.pendingConn = aerase d w.login.pendingConn ∧
     (popPending w d).1.login.whitelist = w.login.whitelist ∧
     (popPending w d).1.login.authNode = w.login.authNode ∧
     (popPending w d).2 = alookup d w.login.pendingConn) := by
  unfold popPending
  split
  · next heq => exact Or.inr ⟨rfl, rfl, rfl, heq.symm⟩
  · exact Or.inl ⟨rfl, rfl⟩

theorem removeIndexes_login (w : World) (n : Nat) :
    (removeIndexes w n).login = w.login := by
  unfold removeIndexes
  split <;> rfl

theorem removeBinding_fst (wl : List (String × BindingRecord)) (d c : String) :
    (removeBinding wl d c).1 = wl ∨ (removeBinding wl d c).1 = aerase d wl := by
  unfold removeBinding
  split
  · exact Or.inl rfl
  · split
    · exact Or.inl rfl
    · exact Or.inr rfl

theorem popPending_evolves (w : World) (d : String) :
    MapEvolves w.login.pendingConn (popPending w d).1.login.pendingConn ∧
    (popPending w d).1.login.whitelist = w.login.whitelist := by
  rcases popPending_state w d with ⟨h1, -⟩ | ⟨hp, hw, -, -⟩
  · rw [h1]
    exact ⟨Or.inl rfl, rfl⟩
  · exact ⟨Or.inr (Or.inr ⟨d, hp⟩), hw⟩

theorem handleRegister_evolves (env : Env) (w : World) (conn : Conn) (data : JsonData)
    (assisted : Bool) :
    MapEvolves w.login.pendingConn (handleRegister env w conn data assisted).1.login.pendingConn ∧
    MapEvolves w.login.whitelist (handleRegister env w conn data assisted).1.login.whitelist := by
  unfold handleRegister
  split
  · exact ⟨Or.inl rfl, Or.inl rfl⟩
  rename_i req heq
  dsimp only
  split
  · exact ⟨Or.inl rfl, Or.inl rfl⟩
  split
  · -- assisted: ensureNodeID then ensureCredential, no map change
    obtain ⟨hp1, hw1, -⟩ := ensureNodeID_state w req.deviceID
    obtain ⟨hp2, hw2, -⟩ := ensureCredential_state env (ensureNodeID w req.deviceID).1 req.deviceID
    exact ⟨Or.inl (hp2.trans hp1), Or.inl (hw2.trans hw1)⟩
  · -- authority or self
    split
    · -- forwarded: setPending over selectAuthority
      obtain ⟨hp0, hw0⟩ := selectAuthorityState_login_maps env w
      rw [selectAuthority_fst]
      refine ⟨Or.inr (Or.inl ⟨req.deviceID, conn.id, ?_⟩), Or.inl ?_⟩
      · rw [(setPending_state _ _ _).1, hp0]
      · rw [(setPending_state _ _ _).2.1, hw0]
    · -- self authority: ensure, ensure, saveBinding
      rw [selectAuthority_fst]
      obtain ⟨hp0, hw0⟩ := selectAuthorityState_login_maps env w
      obtain ⟨hp1, hw1, -⟩ := ensureNodeID_state (selectAuthorityState env w) req.deviceID
      obtain ⟨hp2, hw2, -⟩ :=
        ensureCredential_state env (ensureNodeID (selectAuthorityState env w) req.deviceID).1
          req.deviceID
      refine ⟨Or.inl ?_, ?_⟩
      · rw [(saveBinding_state _ _ _ _ _).1, hp2, hp1, hp0]
      · rw [(saveBinding_state _ _ _ _ _).2.1, hw2, hw1, hw0]
        exact Or.inr (Or.inl ⟨req.deviceID, _, rfl⟩)

theorem handleRegisterResp_evolves (env : Env) (w : World) (data : JsonData) :
    MapEvolves w.login.pendingConn (handleRegisterResp env w data).1.login.pendingConn ∧
    MapEvolves w.login.whitelist (handleRegisterResp env w data).1.login.whitelist := by
  unfold handleRegisterResp
  split
  · exact ⟨Or.inl rfl, Or.inl rfl⟩
  rename_i resp heq
  dsimp only
  split
  · exact ⟨Or.inl rfl, Or.inl rfl⟩
  obtain ⟨hpE, hwE⟩ := popPending_evolves w resp.deviceID
  split
  · exact ⟨hpE, Or.inl hwE⟩
  · split
    · refine ⟨?_, ?_⟩
      · rw [(saveBinding_state _ _ _ _ _).1]
        exact hpE
      · rw [(saveBinding_state _ _ _ _ _).2.1, hwE]
        exact Or.inr (Or.inl ⟨resp.deviceID, _, rfl⟩)
    · exact ⟨hpE, Or.inl hwE⟩

theorem handleLogin_evolves (env : Env) (w : World) (conn : Conn) (data : JsonData)
    (assisted : Bool) :
    MapEvolves w.login.pendingConn (handleLogin env w conn data assisted).1.login.pendingConn ∧
    MapEvolves w.login.whitelist (handleLogin env w conn data assisted).1.login.whitelist := by
  unfold handleLogin
  split
  · exact ⟨Or.inl rfl, Or.inl rfl⟩
  rename_i req heq
  dsimp only
  split
  · exact ⟨Or.inl rfl, Or.inl rfl⟩
  split
  · -- assisted: no state change on any branch
    split
    · split <;> exact ⟨Or.inl rfl, Or.inl rfl⟩
    · exact ⟨Or.inl rfl, Or.inl rfl⟩
  · split
    · split
      · -- local hit with matching credential: saveBinding
        refine ⟨Or.inl (saveBinding_state _ _ _ _ _).1, ?_⟩
        rw [(saveBinding_state _ _ _ _ _).2.1]
        exact Or.inr (Or.inl ⟨req.deviceID, _, rfl⟩)
      · exact ⟨Or.inl rfl, Or.inl rfl⟩
    · -- local miss
      split
      · -- authority found: setPending + forward
        obtain ⟨hp0, hw0⟩ := selectAuthorityState_login_maps env w
        rw [selectAuthority_fst]
        refine ⟨?_, ?_⟩
        · rw [(setPending_state _ _ _).1, hp0]
          exact Or.inr (Or.inl ⟨req.deviceID, conn.id, rfl⟩)
        · rw [(setPending_state _ _ _).2.1, hw0]
          exact Or.inl rfl
      · rw [selectAuthority_fst]
        obtain ⟨hp0, hw0⟩ := selectAuthorityState_login_maps env w
        exact ⟨Or.inl hp0, Or.inl hw0⟩

theorem handleLoginResp_evolves (env : Env) (w : World) (data : JsonData) :
    MapEvolves w.login.pendingConn (handleLoginResp env w data).1.login.pendingConn ∧
    MapEvolves w.login.whitelist (handleLoginResp env w data).1.login.whitelist := by
  unfold handleLoginResp
  split
  · exact ⟨Or.inl rfl, Or.inl rfl⟩
  rename_i resp heq
  dsimp only
  split
  · exact ⟨Or.inl rfl, Or.inl rfl⟩
  obtain ⟨hpE, hwE⟩ := popPending_evolves w resp.deviceID
  split
  · exact ⟨hpE, Or.inl hwE⟩
  · split
    · split
      · refine ⟨?_, ?_⟩
        · rw [(saveBinding_state _ _ _ _ _).1]
          exact hpE
        · rw [(saveBinding_state _ _ _ _ _).2.1, hwE]
          exact Or.inr (Or.inl ⟨resp.deviceID, _, rfl⟩)
      · exact ⟨hpE, Or.inl hwE⟩
    · exact ⟨hpE, Or.inl hwE⟩

theorem handleRevoke_evolves (env : Env) (w : World) (conn : Conn) (data : JsonData) :
    MapEvolves w.login.pendingConn (handleRevoke env w conn data).1.login.pendingConn ∧
    MapEvolves w.login.whitelist (handleRevoke env w conn data).1.login.whitelist := by
  unfold handleRevoke
  split
  · exact ⟨Or.inl rfl, Or.inl rfl⟩
  rename_i req heq
  dsimp only
  split
  · exact ⟨Or.inl rfl, Or.inl rfl⟩
  refine ⟨Or.inl rfl, ?_⟩
  rcases removeBinding_fst w.login.whitelist req.deviceID req.credential with h | h
  · exact Or.inl h
  · exact Or.inr (Or.inr ⟨req.deviceID, h⟩)

theorem handleAssistQuery_fst (w : World) (conn : Conn) (data : JsonData) :
    (handleAssistQuery w conn data).1 = w := by
  unfold handleAssistQuery
  split
  · rfl
  split
  · rfl
  split <;> rfl

theorem handleAssistQueryResp_evolves (env : Env) (w : World) (data : JsonData) :
    MapEvolves w.login.pendingConn (handleAssistQueryResp env w data).1.login.pendingConn ∧
    MapEvolves w.login.whitelist (handleAssistQueryResp env w data).1.login.whitelist := by
  unfold handleAssistQueryResp
  split
  · exact ⟨Or.inl rfl, Or.inl rfl⟩
  rename_i resp heq
  dsimp only
  split
  · exact ⟨Or.inl rfl, Or.inl rfl⟩
  obtain ⟨hpE, hwE⟩ := popPending_evolves w resp.deviceID
  split
  · exact ⟨hpE, Or.inl hwE⟩
  · split
    · split
      · refine ⟨?_, ?_⟩
        · rw [(saveBinding_state _ _ _ _ _).1]
          exact hpE
        · rw [(saveBinding_state _ _ _ _ _).2.1, hwE]
          exact Or.inr (Or.inl ⟨resp.deviceID, _, rfl⟩)
      · exact ⟨hpE, Or.inl hwE⟩
    · exact ⟨hpE, Or.inl hwE⟩

theorem handleOffline_evolves (env : Env) (w : World) (conn : Conn) (data : JsonData)
    (assisted : Bool) :
    MapEvolves w.login.pendingConn (handleOffline env w conn data assisted).1.login.pendingConn ∧
    MapEvolves w.login.whitelist (handleOffline env w conn data assisted).1.login.whitelist := by
  unfold handleOffline
  split
  · exact ⟨Or.inl rfl, Or.inl rfl⟩
  rename_i req heq
  dsimp only
  split
  · exact ⟨Or.inl rfl, Or.inl rfl⟩
  have hmain :
      MapEvolves w.login.pendingConn
        (removeIndexes
          { w with login := { w.login with
              whitelist := (removeBinding w.login.whitelist req.deviceID "").1 } }
          req.nodeID).login.pendingConn ∧
      MapEvolves w.login.whitelist
        (removeIndexes
          { w with login := { w.login with
              whitelist := (removeBinding w.login.whitelist req.deviceID "").1 } }
          req.nodeID).login.whitelist := by
    rw [removeIndexes_login]
    refine ⟨Or.inl rfl, ?_⟩
    rcases removeBinding_fst w.login.whitelist req.deviceID "" with h | h
    · exact Or.inl h
    · exact Or.inr (Or.inr ⟨req.deviceID, h⟩)
  split
  · exact hmain
  · split
    · split
      · exact hmain
      · exact hmain
    · exact hmain

theorem loginOnReceive_evolves (env : Env) (w : World) (conn : Conn)
    (frame : Option (String × JsonData)) :
    MapEvolves w.login.pendingConn (loginOnReceive env w conn frame).1.login.pendingConn ∧
    MapEvolves w.login.whitelist (loginOnReceive env w conn frame).1.login.whitelist := by
  unfold loginOnReceive
  split
  · exact ⟨Or.inl rfl, Or.inl rfl⟩
  rename_i action data
  dsimp only
  split
  · exact handleRegister_evolves env w conn data false
  split
  · exact handleRegister_evolves env w conn data true
  split
  · exact handleRegisterResp_evolves env w data
  split
  · exact handleLogin_evolves env w conn data false
  split
  · exact handleLogin_evolves env w conn data true
  split
  · exact handleLoginResp_evolves env w data
  split
  · exact handleRevoke_evolves env w conn data
  split
  · rw [handleAssistQuery_fst]
    exact ⟨Or.inl rfl, Or.inl rfl⟩
  split
  · exact handleAssistQueryResp_evolves env w data
  split
  · exact handleOffline_evolves env w conn data false
  split
  · exact handleOffline_evolves env w conn data true
  · exact ⟨Or.inl rfl, Or.inl rfl⟩

theorem MapEvolves.nodup_keys {α β : Type} [DecidableEq α] {m m' : List (α × β)}
    (he : MapEvolves m m') (h : (m.map Prod.fst).Nodup) : (m'.map Prod.fst).Nodup := by
  rcases he with rfl | ⟨k, v, rfl⟩ | ⟨k, rfl⟩
  · exact h
  · exact nodup_keys_aupsert k v m h
  · exact nodup_keys_aerase k m h

theorem runTrace_nodup_aux (tr : List StepInput) (w : World)
    (h : (w.login.pendingConn.map Prod.fst).Nodup ∧ (w.login.whitelist.map Prod.fst).Nodup) :
    ((runTrace w tr).login.pendingConn.map Prod.fst).Nodup ∧
    ((runTrace w tr).login.whitelist.map Prod.fst).Nodup := by
  induction tr generalizing w with
  | nil => exact h
  | cons i rest ih =>
    exact ih _ ⟨(loginOnReceive_evolves i.env w i.conn i.frame).1.nodup_keys h.1,
                (loginOnReceive_evolves i.env w i.conn i.frame).2.nodup_keys h.2⟩

/-! ## Characterization lemmas for single operations -/

theorem removeBinding_found_del (wl : List (String × BindingRecord)) (d c : String)
    (rec : BindingRecord) (hl : alookup d wl = some rec)
    (hok : c = "" ∨ rec.credential = c) :
    removeBinding wl d c = (aerase d wl, true, false) := by
  unfold removeBinding
  rw [hl]
  dsimp only
  rw [if_neg ?hcond]
  case hcond =>
    rcases hok with h | h
    · exact fun hc => hc.1 h
    · exact fun hc => hc.2 h

theorem removeBinding_found_mismatch (wl : List (String × BindingRecord)) (d c : String)
    (rec : BindingRecord) (hl : alookup d wl = some rec) (hc : c ≠ "")
    (hm : rec.credential ≠ c) :
    removeBinding wl d c = (wl, false, true) := by
  unfold removeBinding
  rw [hl]
  dsimp only
  rw [if_pos ⟨hc, hm⟩]

theorem removeBinding_notfound (wl : List (String × BindingRecord)) (d c : String)
    (hl : alookup d wl = none) :
    removeBinding wl d c = (wl, false, false) := by
  unfold removeBinding
  rw [hl]

theorem popPending_none (w : World) (d : String)
    (h : alookup d w.login.pendingConn = none) :
    popPending w d = (w, none) := by
  unfold popPending
  rw [h]

theorem selectAuthority_noauth (env : Env) (w : World) (hcfg : env.authorityNodeCfg = 0)
    (han : w.login.authNode = 0) (hpar : findParentConnLogin env.conns = none) :
    selectAuthority env w = (w, none) := by
  unfold selectAuthority selectAuthorityState
  simp [hcfg, han, hpar]

theorem ensureNodeID_miss (w : World) (d : String) (h : alookup d w.login.whitelist = none) :
    ensureNodeID w d =
      ({ w with login := { w.login with nextID := (w.login.nextID + 1) % 2 ^ 32 } },
       w.login.nextID % 2 ^ 32) := by
  unfold ensureNodeID
  rw [h]

theorem ensureNodeID_hit (w : World) (d : String) (rec : BindingRecord)
    (h : alookup d w.login.whitelist = some rec) :
    ensureNodeID w d = (w, rec.nodeID) := by
  unfold ensureNodeID
  rw [h]

theorem ensureCredential_miss (env : Env) (w : World) (d : String)
    (h : alookup d w.login.whitelist = none) :
    ensureCredential env w d =
      ({ w with login := { w.login with credCounter := w.login.credCounter + 1 } },
       env.genCred w.login.credCounter) := by
  unfold ensureCredential
  rw [h]

theorem ensureCredential_hit (env : Env) (w : World) (d : String) (rec : BindingRecord)
    (h : alookup d w.login.whitelist = some rec) (hc : rec.credential ≠ "") :
    ensureCredential env w d = (w, rec.credential) := by
  unfold ensureCredential
  rw [h]
  dsimp only
  rw [if_pos hc]

theorem respsOf_append (a b : List Out) : respsOf (a ++ b) = respsOf a ++ respsOf b := by
  simp [respsOf, List.filter_append]

theorem respsOf_bcast_map (l : List Conn) (a : String) (r : RevokeData) :
    respsOf (l.map fun c => Out.bcast c.id a r) = [] := by
  induction l with
  | nil => rfl
  | cons hd tl ih =>
    simp only [List.map_cons, respsOf, List.filter] at ih ⊢
    exact ih

theorem respsOf_resp_cons (cid a : String) (d : RespData) (rest : List Out) :
    respsOf (Out.resp cid a d :: rest) = Out.resp cid a d :: respsOf rest := by
  simp [respsOf, List.filter]

/-! ## Claim theorems -/

/-- C1: the claim says that on a received `assist_register_resp` the edge
pops the pending entry for the payload's device and, when the recorded
connection still exists, saves the binding and emits `register_resp`.
The code's `OnReceive` switch has no case for `assist_register_resp`:
with a pending entry for `dev-1` in place and the recorded connection
live, the authority's reply leaves the world untouched and emits nothing
(first two conjuncts), while the very behaviour the claim describes is
keyed to the plain `register_resp` action instead (remaining conjuncts). -/
theorem C1_assist_register_resp_dropped :
    loginOnReceive envWithParent pendingWorld connParent
      (some ("assist_register_resp",
        respJson { code := 1, msg := "ok", deviceID := "dev-1", nodeID := 7,
                   credential := "tok-7" })) = (pendingWorld, []) ∧
    alookup "dev-1" pendingWorld.login.pendingConn = some "conn-dev" ∧
    (loginOnReceive envWithParent pendingWorld connParent
      (some ("register_resp",
        respJson { code := 1, msg := "ok", deviceID := "dev-1", nodeID := 7,
                   credential := "tok-7" }))).2 =
      [.resp "conn-dev" "register_resp"
        { code := 1, msg := "ok", deviceID := "dev-1", nodeID := 7, credential := "tok-7" }] ∧
    (loginOnReceive envWithParent pendingWorld connParent
      (some ("register_resp",
        respJson { code := 1, msg := "ok", deviceID := "dev-1", nodeID := 7,
                   credential := "tok-7" }))).1.login.pendingConn = [] ∧
    (loginOnReceive envWithParent pendingWorld connParent
      (some ("register_resp",
        respJson { code := 1, msg := "ok", deviceID := "dev-1", nodeID := 7,
                   credential := "tok-7" }))).1.login.whitelist =
      [("dev-1", ⟨7, "tok-7"⟩)] :=
  ⟨rfl, rfl, rfl, rfl, rfl⟩

/-- C2: the offline-login, mismatch, forwarding and no-authority branches
of `handleLogin` behave as claimed (first four conjuncts), but the
authority's reply to the forwarded `assist_login` — an envelope whose
action is `assist_login_resp` with code 1 — has no case in the
`OnReceive` switch: with the pending entry in place it is dropped without
saving a binding or forwarding `login_resp`, contradicting the claim's
reply clause (last conjunct). -/
theorem C2_login_flow_assist_reply_dropped :
    (loginOnReceive envNoParent boundWorld connDev
      (some ("login", loginJson ⟨"dev-1", "tok-7"⟩))).2 =
      [.resp "conn-dev" "login_resp"
        { code := 1, msg := "ok", deviceID := "dev-1", nodeID := 7, credential := "tok-7" }] ∧
    (loginOnReceive envNoParent boundWorld connDev
      (some ("login", loginJson ⟨"dev-1", "wrong"⟩))).2 =
      [.resp "conn-dev" "login_resp" { code := 4001, msg := "invalid credential" }] ∧
    ((loginOnReceive envWithParent initialWorld connDev
        (some ("login", loginJson ⟨"dev-1", "t"⟩))).2 =
      [.fwd "conn-parent" "assist_login" (.login ⟨"dev-1", "t"⟩)] ∧
     (loginOnReceive envWithParent initialWorld connDev
        (some ("login", loginJson ⟨"dev-1", "t"⟩))).1.login.pendingConn =
      [("dev-1", "conn-dev")]) ∧
    (loginOnReceive envNoParent initialWorld connDev
      (some ("login", loginJson ⟨"dev-1", "t"⟩))).2 =
      [.resp "conn-dev" "login_resp" { code := 4001, msg := "invalid credential" }] ∧
    loginOnReceive envWithParent pendingWorld connParent
      (some ("assist_login_resp",
        respJson { code := 1, msg := "ok", deviceID := "dev-1", nodeID := 7,
                   credential := "tok-7" })) = (pendingWorld, []) :=
  ⟨rfl, rfl, ⟨rfl, rfl⟩, rfl, rfl⟩

/-- C5: the claim says every Store error is answered with code 4500 and
never silently swallowed. Against a store whose calls fail, the
authority handler answers register/login/query requests with code 500 —
not 4500 — and the revoke handler returns without sending anything at
all (last conjunct): the error is logged and swallowed. -/
theorem C5_store_error_500_and_swallowed :
    (authOnReceive errStoreImpl () [] connDev (some ("register", regJson ⟨"dev-1"⟩))).2.2 =
      [.resp "conn-dev" "register_resp" { code := 500, msg := "internal error" }] ∧
    (authOnReceive errStoreImpl () [] connDev
      (some ("assist_register", regJson ⟨"dev-1"⟩))).2.2 =
      [.resp "conn-dev" "assist_register_resp" { code := 500, msg := "internal error" }] ∧
    (authOnReceive errStoreImpl () [] connDev
      (some ("login", loginJson ⟨"dev-1", "x"⟩))).2.2 =
      [.resp "conn-dev" "login_resp" { code := 500, msg := "internal error" }] ∧
    (authOnReceive errStoreImpl () [] connDev
      (some ("assist_query_credential", { deviceID := some "dev-1" }))).2.2 =
      [.resp "conn-dev" "assist_query_credential_resp" { code := 500, msg := "internal error" }] ∧
    authOnReceive errStoreImpl () [] connDev
      (some ("revoke", revokeJson ⟨"dev-1", 5, "x"⟩)) = ((), [], []) :=
  ⟨rfl, rfl, rfl, rfl, rfl⟩

/-- C7: a plain `offline` deletes the binding unconditionally, nulls the
node index entry, sends no response, and forwards `assist_offline` to the
parent (first conjunct); an `offline` arriving on the parent connection
itself is not forwarded back (second conjunct). But an `assist_offline`
arriving from a non-parent connection while a parent exists is NOT
forwarded onward (third conjunct), contradicting the claim's (and the
protocol document's level-by-level) forwarding clause for
`assist_offline`. -/
theorem C7_offline_flow_assist_not_forwarded :
    loginOnReceive envWithParent offlineWorld connDev
      (some ("offline", offlineJson ⟨"dev-1", 5, "bye"⟩)) =
      ({ login := { whitelist := [] }, nodeIndex := [(5, none)] },
       [.fwd "conn-parent" "assist_offline" (.offline ⟨"dev-1", 5, "bye"⟩)]) ∧
    loginOnReceive envParentOnly offlineWorld connParent
      (some ("offline", offlineJson ⟨"dev-1", 5, "bye"⟩)) =
      ({ login := { whitelist := [] }, nodeIndex := [(5, none)] }, []) ∧
    loginOnReceive envWithParent offlineWorld connDev
      (some ("assist_offline", offlineJson ⟨"dev-1", 5, "bye"⟩)) =
      ({ login := { whitelist := [] }, nodeIndex := [(5, none)] }, []) :=
  ⟨rfl, rfl, rfl⟩

/-- C9: the claim says every auth response's action is the request's
action with `_resp` appended, including error responses, so an
`assist_register` / `assist_login` is never answered with the plain
action. At the edge handler the malformed-data branches do exactly that:
an `assist_register` with missing device_id is answered with
`register_resp`, an `assist_login` with `login_resp` (the authority
handler's `chooseAction`, by contrast, picks the assist variants, last
two conjuncts). -/
theorem C9_malformed_assist_answered_with_plain_action :
    (loginOnReceive envWithParent initialWorld connParent
      (some ("assist_register", {}))).2 =
      [.resp "conn-parent" "register_resp" { code := 400, msg := "invalid register data" }] ∧
    (loginOnReceive envWithParent initialWorld connParent
      (some ("assist_login", {}))).2 =
      [.resp "conn-parent" "login_resp" { code := 400, msg := "invalid login data" }] ∧
    (authOnReceive errStoreImpl () [] connDev (some ("assist_register", {}))).2.2 =
      [.resp "conn-dev" "assist_register_resp" { code := 400, msg := "invalid register data" }] ∧
    (authOnReceive errStoreImpl () [] connDev (some ("assist_login", {}))).2.2 =
      [.resp "conn-dev" "assist_login_resp" { code := 400, msg := "invalid login data" }] :=
  ⟨rfl, rfl, rfl, rfl⟩

/-- C8: for every header and payload with `len(payload) = PayloadLen`
within the 16 MiB cap and in-range fields, `encode` emits exactly
`24 + len(payload)` bytes, `decode ∘ encode` returns the header and
payload byte-exactly (consuming the whole frame), and the Reserved bytes
decode as zero. -/
theorem C8_codec_roundtrip (h : HeaderTcp) (p : List Nat) (hv : h.Valid)
    (hlen : p.length = h.payloadLen) (hcap : h.payloadLen ≤ frameCap) :
    (encodeFrame h p).length = 24 + p.length ∧
    decodeFrame (encodeFrame h p) = some (h, 0, p, []) :=
  ⟨encodeFrame_length h p, decodeFrame_encodeFrame h p hv hlen hcap⟩

/-- Witness for C8 at a concrete header and payload. -/
theorem C8_codec_roundtrip_witness :
    (HeaderTcp.mk 3 7 1 2 9 100 2).Valid ∧
    ([5, 6] : List Nat).length = (HeaderTcp.mk 3 7 1 2 9 100 2).payloadLen ∧
    (HeaderTcp.mk 3 7 1 2 9 100 2).payloadLen ≤ frameCap ∧
    ((encodeFrame (HeaderTcp.mk 3 7 1 2 9 100 2) [5, 6]).length = 24 + [5, 6].length ∧
     decodeFrame (encodeFrame (HeaderTcp.mk 3 7 1 2 9 100 2) [5, 6]) =
       some (HeaderTcp.mk 3 7 1 2 9 100 2, 0, [5, 6], [])) :=
  ⟨by decide, by decide, by decide,
   C8_codec_roundtrip (HeaderTcp.mk 3 7 1 2 9 100 2) [5, 6] (by decide) (by decide) (by decide)⟩

/-- C10: `Manager.Add` of an already-indexed connection id returns an
error, leaves the map unchanged and fires no hook; `Manager.Remove` of an
unknown id returns an error without firing `OnRemove` or closing
anything; and both operations preserve key uniqueness of the map, so at
every moment at most one live connection is indexed per connection id. -/
theorem C10_manager_add_remove (m : MgrState) (id : String) (handle : Nat) :
    ((alookup id m.conns).isSome → mgrAdd m id handle = (m, some "conn exists", [])) ∧
    (alookup id m.conns = none → mgrRemove m id = (m, some "conn not found", [])) ∧
    ((m.conns.map Prod.fst).Nodup →
      (((mgrAdd m id handle).1.conns.map Prod.fst).Nodup ∧
       ((mgrRemove m id).1.conns.map Prod.fst).Nodup)) := by
  refine ⟨?_, ?_, ?_⟩
  · intro hs
    unfold mgrAdd
    rw [if_pos hs]
  · intro hn
    unfold mgrRemove
    rw [hn]
  · intro hnd
    constructor
    · unfold mgrAdd
      split
      · exact hnd
      · exact nodup_keys_aupsert id handle m.conns hnd
    · unfold mgrRemove
      split
      · exact hnd
      · exact nodup_keys_aerase id m.conns hnd

/-- Witness for C10 at a concrete one-entry manager. -/
theorem C10_manager_witness :
    mgrAdd { conns := [("c1", 1)] } "c1" 2 = ({ conns := [("c1", 1)] }, some "conn exists", []) ∧
    mgrRemove { conns := [("c1", 1)] } "c2" =
      ({ conns := [("c1", 1)] }, some "conn not found", []) ∧
    ((mgrAdd { conns := [("c1", 1)] } "c2" 5).1.conns.map Prod.fst).Nodup ∧
    ((mgrRemove { conns := [("c1", 1)] } "c1").1.conns.map Prod.fst).Nodup :=
  ⟨(C10_manager_add_remove { conns := [("c1", 1)] } "c1" 2).1 (by decide),
   (C10_manager_add_remove { conns := [("c1", 1)] } "c2" 2).2.1 (by decide),
   ((C10_manager_add_remove { conns := [("c1", 1)] } "c2" 5).2.2 (by decide)).1,
   ((C10_manager_add_remove { conns := [("c1", 1)] } "c1" 5).2.2 (by decide)).2⟩

/-- C4: for every `revoke` with a non-empty device_id handled at the
edge, partitioning on the whitelist state: if the binding exists and the
supplied credential is empty or matches, the handler emits exactly one
`revoke_resp` with code 1 and the binding is removed; if the binding
exists, a credential was supplied and it mismatches, it emits exactly one
`revoke_resp` with code 4402 and the whitelist is unchanged; if no
binding exists it emits no response at all (the rebroadcast of the
`revoke` to the other connections is not a response). The three cases
are exhaustive and their outputs distinct, giving the claimed
iff-characterisation. -/
theorem C4_revoke_responses (env : Env) (w : World) (conn : Conn) (req : RevokeData)
    (hd : req.deviceID ≠ "") (hnd : (w.login.whitelist.map Prod.fst).Nodup) :
    ((∃ rec, alookup req.deviceID w.login.whitelist = some rec ∧
        (req.credential = "" ∨ rec.credential = req.credential)) →
      respsOf (handleRevoke env w conn (revokeJson req)).2 =
        [.resp conn.id "revoke_resp"
          { code := 1, msg := "ok", deviceID := req.deviceID, nodeID := req.nodeID }] ∧
      alookup req.deviceID (handleRevoke env w conn (revokeJson req)).1.login.whitelist = none) ∧
    ((∃ rec, alookup req.deviceID w.login.whitelist = some rec ∧
        req.credential ≠ "" ∧ rec.credential ≠ req.credential) →
      respsOf (handleRevoke env w conn (revokeJson req)).2 =
        [.resp conn.id "revoke_resp"
          { code := 4402, msg := "credential mismatch", deviceID := req.deviceID,
            nodeID := req.nodeID }] ∧
      (handleRevoke env w conn (revokeJson req)).1.login.whitelist = w.login.whitelist) ∧
    (alookup req.deviceID w.login.whitelist = none →
      respsOf (handleRevoke env w conn (revokeJson req)).2 = []) := by
  have hparse : parseRevokeData (revokeJson req) = some req := rfl
  refine ⟨?_, ?_, ?_⟩
  · rintro ⟨rec, hl, hok⟩
    have hrb := removeBinding_found_del w.login.whitelist req.deviceID req.credential rec hl hok
    simp only [handleRevoke, hparse, hd, if_false, hrb, respsOf_append, respsOf_bcast_map,
      respsOf_resp_cons, Bool.true_or, Bool.false_or, if_true]
    refine ⟨?_, ?_⟩
    · simp [respsOf]
    · exact alookup_aerase_self _ _ hnd
  · rintro ⟨rec, hl, hc, hm⟩
    have hrb := removeBinding_found_mismatch w.login.whitelist req.deviceID req.credential
      rec hl hc hm
    simp only [handleRevoke, hparse, hd, if_false, hrb, respsOf_append, respsOf_bcast_map,
      respsOf_resp_cons, Bool.or_true, if_true]
    simp [respsOf]
  · intro hl
    have hrb := removeBinding_notfound w.login.whitelist req.deviceID req.credential hl
    simp only [handleRevoke, hparse, hd, if_false, hrb, respsOf_append, respsOf_bcast_map,
      Bool.or_self, if_false]
    simp [respsOf]

/-- Witness for C4: success, mismatch and not-found at concrete states. -/
theorem C4_revoke_responses_witness :
    respsOf (handleRevoke envNoParent boundWorld connDev
        (revokeJson ⟨"dev-1", 7, "tok-7"⟩)).2 =
      [.resp "conn-dev" "revoke_resp"
        { code := 1, msg := "ok", deviceID := "dev-1", nodeID := 7 }] ∧
    alookup "dev-1" (handleRevoke envNoParent boundWorld connDev
        (revokeJson ⟨"dev-1", 7, "tok-7"⟩)).1.login.whitelist = none ∧
    respsOf (handleRevoke envNoParent boundWorld connDev
        (revokeJson ⟨"dev-1", 7, "bogus"⟩)).2 =
      [.resp "conn-dev" "revoke_resp"
        { code := 4402, msg := "credential mismatch", deviceID := "dev-1", nodeID := 7 }] ∧
    respsOf (handleRevoke envNoParent initialWorld connDev
        (revokeJson ⟨"dev-2", 0, ""⟩)).2 = [] :=
  ⟨((C4_revoke_responses envNoParent boundWorld connDev ⟨"dev-1", 7, "tok-7"⟩
      (by decide) (by decide)).1 ⟨⟨7, "tok-7"⟩, rfl, Or.inr rfl⟩).1,
   ((C4_revoke_responses envNoParent boundWorld connDev ⟨"dev-1", 7, "tok-7"⟩
      (by decide) (by decide)).1 ⟨⟨7, "tok-7"⟩, rfl, Or.inr rfl⟩).2,
   ((C4_revoke_responses envNoParent boundWorld connDev ⟨"dev-1", 7, "bogus"⟩
      (by decide) (by decide)).2.1 ⟨⟨7, "tok-7"⟩, rfl, by decide, by decide⟩).1,
   (C4_revoke_responses envNoParent initialWorld connDev ⟨"dev-2", 0, ""⟩
      (by decide) (by decide)).2.2 rfl⟩

/-- C6: (1) after any sequence of dispatched frames from the fresh
handler, the pending table's keys are unique, so it holds at most one
entry per device_id; (2) a forwarded `register` overwrites whatever
pending entry the device had with the new source connection (Go map
assignment); (3) a `register_resp` / `login_resp` /
`assist_query_credential_resp` whose device has no pending entry leaves
the world unchanged and sends nothing. -/
theorem C6_pending_at_most_one :
    (∀ tr : List StepInput,
      (((runTrace initialWorld tr).login.pendingConn.map Prod.fst).Nodup)) ∧
    (∀ (env : Env) (w : World) (conn : Conn) (req : RegisterData), req.deviceID ≠ "" →
      ∀ a, (selectAuthority env w).2 = some a →
      alookup req.deviceID
        (handleRegister env w conn (regJson req) false).1.login.pendingConn = some conn.id) ∧
    (∀ (env : Env) (w : World) (r : RespData), r.deviceID ≠ "" →
      alookup r.deviceID w.login.pendingConn = none →
      (handleRegisterResp env w (respJson r) = (w, []) ∧
       handleLoginResp env w (respJson r) = (w, []) ∧
       handleAssistQueryResp env w (respJson r) = (w, []))) := by
  refine ⟨?_, ?_, ?_⟩
  · intro tr
    exact (runTrace_nodup_aux tr initialWorld ⟨List.nodup_nil, List.nodup_nil⟩).1
  · intro env w conn req hd a ha
    have hparse : parseRegisterData (regJson req) = some req := rfl
    simp only [handleRegister, hparse, hd, if_false, ha, Bool.false_eq_true]
    rw [(setPending_state _ _ _).1]
    exact alookup_aupsert_self _ _ _
  · intro env w r hd hnone
    have hparse : parseRespData (respJson r) = some r := rfl
    have hpop := popPending_none w r.deviceID hnone
    refine ⟨?_, ?_, ?_⟩
    · simp only [handleRegisterResp, hparse, hd, if_false, hpop]
    · simp only [handleLoginResp, hparse, hd, if_false, hpop]
    · simp only [handleAssistQueryResp, hparse, hd, if_false, hpop]

/-- Witness for C6: a one-step trace, an overwrite of an existing pending
entry, and an uncorrelated response dropped. -/
theorem C6_pending_witness :
    (((runTrace initialWorld
        [⟨envWithParent, connDev, some ("register", regJson ⟨"dev-1"⟩)⟩]).login.pendingConn.map
          Prod.fst).Nodup) ∧
    alookup "dev-1"
      (handleRegister envWithParent pendingWorld connDev2
        (regJson ⟨"dev-1"⟩) false).1.login.pendingConn = some "conn-dev2" ∧
    handleRegisterResp envWithParent initialWorld
      (respJson { code := 1, deviceID := "dev-9" }) = (initialWorld, []) :=
  ⟨C6_pending_at_most_one.1 _,
   C6_pending_at_most_one.2.1 envWithParent pendingWorld connDev2 ⟨"dev-1"⟩ (by decide)
     connParent rfl,
   (C6_pending_at_most_one.2.2 envWithParent initialWorld
     { code := 1, deviceID := "dev-9" } (by decide) rfl).1⟩

/-- C3 counterexample: at an edge `LoginHandler` acting as authority, the
`assist_register` branch never persists the binding, so a second
`assist_register` of the same device (no revoke or offline in between,
same credential oracle) is answered with node id 3 where the first got
node id 2 — the two responses differ, refuting the claim that a second
authoritative register returns the same node id and credential. -/
theorem C3_assist_reregister_counterexample :
    (loginOnReceive envNoParent initialWorld connDev
      (some ("assist_register", regJson ⟨"dev-1"⟩))).2 =
      [.resp "conn-dev" "assist_register_resp"
        { code := 1, msg := "ok", deviceID := "dev-1", nodeID := 2, credential := "cred" }] ∧
    (loginOnReceive envNoParent
      (loginOnReceive envNoParent initialWorld connDev
        (some ("assist_register", regJson ⟨"dev-1"⟩))).1 connDev
      (some ("assist_register", regJson ⟨"dev-1"⟩))).2 =
      [.resp "conn-dev" "assist_register_resp"
        { code := 1, msg := "ok", deviceID := "dev-1", nodeID := 3, credential := "cred" }] ∧
    (loginOnReceive envNoParent initialWorld connDev
      (some ("assist_register", regJson ⟨"dev-1"⟩))).2 ≠
    (loginOnReceive envNoParent
      (loginOnReceive envNoParent initialWorld connDev
        (some ("assist_register", regJson ⟨"dev-1"⟩))).1 connDev
      (some ("assist_register", regJson ⟨"dev-1"⟩))).2 :=
  ⟨rfl, rfl, by decide⟩

/-- C3 as amended: re-register stability holds on the two paths that
persist the binding. (1) At a self-authoritative edge (no configured
authority, no parent), a `register` assigns a node id and credential,
saves them, and a second `register` of the same device returns both
unchanged. (2) At the store-backed `AuthorityHandler` (Store modelled
from the spec), an `assist_register` upserts through the Store and a
second `assist_register` returns the same node id and credential. Only
the edge handler's non-persisting `assist_register` branch (the
counterexample) mints fresh values. -/
theorem C3_amended_register_stability :
    (∀ (env : Env) (w : World) (conn c2 : Conn) (d : String),
      d ≠ "" → env.authorityNodeCfg = 0 → w.login.authNode = 0 →
      findParentConnLogin env.conns = none → alookup d w.login.whitelist = none →
      (∀ n, env.genCred n ≠ "") →
      ∃ node cred,
        (handleRegister env w conn (regJson ⟨d⟩) false).2 =
          [.resp conn.id "register_resp"
            { code := 1, msg := "ok", deviceID := d, nodeID := node, credential := cred }] ∧
        (handleRegister env (handleRegister env w conn (regJson ⟨d⟩) false).1 c2
            (regJson ⟨d⟩) false).2 =
          [.resp c2.id "register_resp"
            { code := 1, msg := "ok", deviceID := d, nodeID := node, credential := cred }]) ∧
    (∀ (s : SpecStore) (cache : AuthCache) (conn c2 : Conn) (d : String), d ≠ "" →
      ∃ node cred,
        (authHandleRegister specStoreImpl s cache conn (regJson ⟨d⟩) true).2.2 =
          [.resp conn.id "assist_register_resp"
            { code := 1, msg := "ok", deviceID := d, nodeID := node, credential := cred }] ∧
        (authHandleRegister specStoreImpl
            (authHandleRegister specStoreImpl s cache conn (regJson ⟨d⟩) true).1
            (authHandleRegister specStoreImpl s cache conn (regJson ⟨d⟩) true).2.1 c2
            (regJson ⟨d⟩) true).2.2 =
          [.resp c2.id "assist_register_resp"
            { code := 1, msg := "ok", deviceID := d, nodeID := node, credential := cred }]) := by
  constructor
  · intro env w conn c2 d hd hcfg han hpar hmiss hg
    have hparse : parseRegisterData (regJson ⟨d⟩) = some ⟨d⟩ := rfl
    have hsel := selectAuthority_noauth env w hcfg han hpar
    have hen := ensureNodeID_miss w d hmiss
    set wA : World :=
      { w with login := { w.login with nextID := (w.login.nextID + 1) % 2 ^ 32 } } with hwA
    have hmissA : alookup d wA.login.whitelist = none := hmiss
    have hec := ensureCredential_miss env wA d hmissA
    refine ⟨w.login.nextID % 2 ^ 32, env.genCred w.login.credCounter, ?_, ?_⟩
    · simp only [handleRegister, hparse, hd, if_false, hsel, Bool.false_eq_true, hen, hec]
    · have h1 :
          (handleRegister env w conn (regJson ⟨d⟩) false).1 =
            saveBinding (ensureCredential env (ensureNodeID w d).1 d).1 conn d
              (ensureNodeID w d).2 (ensureCredential env (ensureNodeID w d).1 d).2 := by
        simp only [handleRegister, hparse, hd, if_false, hsel, Bool.false_eq_true]
      rw [h1, hen]
      simp only [hec]
      set w1 : World :=
        saveBinding
          { wA with login := { wA.login with credCounter := wA.login.credCounter + 1 } } conn d
          (w.login.nextID % 2 ^ 32) (env.genCred w.login.credCounter) with hw1
      have hhit : alookup d w1.login.whitelist =
          some ⟨w.login.nextID % 2 ^ 32, env.genCred w.login.credCounter⟩ :=
        alookup_aupsert_self _ _ _
      have hsel1 : selectAuthority env w1 = (w1, none) :=
        selectAuthority_noauth env w1 hcfg han hpar
      have hen1 := ensureNodeID_hit w1 d _ hhit
      have hec1 := ensureCredential_hit env w1 d _ hhit (hg w.login.credCounter)
      simp only [handleRegister, hparse, hd, if_false, hsel1, Bool.false_eq_true, hen1, hec1]
  · intro s cache conn c2 d hd
    have hparse : parseRegisterData (regJson ⟨d⟩) = some ⟨d⟩ := rfl
    cases h : alookup d s.table with
    | some r =>
      have hup : specStoreImpl.upsertDevice s d = (s, .ok (r.nodeID, r.credential)) := by
        simp only [specStoreImpl, h]
      refine ⟨r.nodeID, r.credential, ?_, ?_⟩
      · simp only [authHandleRegister, hparse, hd, if_false, hup]
        simp [chooseAction]
      · have h1 : (authHandleRegister specStoreImpl s cache conn (regJson ⟨d⟩) true).1 = s := by
          simp only [authHandleRegister, hparse, hd, if_false, hup]
        rw [h1]
        simp only [authHandleRegister, hparse, hd, if_false, hup]
        simp [chooseAction]
    | none =>
      have hup : specStoreImpl.upsertDevice s d =
          ({ s with next := s.next + 1, credCounter := s.credCounter + 1,
                    table := aupsert d ⟨s.next, s.genCred s.credCounter⟩ s.table },
           .ok (s.next, s.genCred s.credCounter)) := by
        simp only [specStoreImpl, h]
      set s1 : SpecStore :=
        { s with next := s.next + 1, credCounter := s.credCounter + 1,
                 table := aupsert d ⟨s.next, s.genCred s.credCounter⟩ s.table } with hs1
      have hhit : alookup d s1.table = some ⟨s.next, s.genCred s.credCounter⟩ :=
        alookup_aupsert_self _ _ _
      have hup1 : specStoreImpl.upsertDevice s1 d =
          (s1, .ok (s.next, s.genCred s.credCounter)) := by
        simp only [specStoreImpl, hhit]
      refine ⟨s.next, s.genCred s.credCounter, ?_, ?_⟩
      · simp only [authHandleRegister, hparse, hd, if_false, hup]
        simp [chooseAction]
      · have h1 : (authHandleRegister specStoreImpl s cache conn (regJson ⟨d⟩) true).1 = s1 := by
          simp only [authHandleRegister, hparse, hd, if_false, hup]
        rw [h1]
        simp only [authHandleRegister, hparse, hd, if_false, hup1]
        simp [chooseAction]

/-- Witness for the amended C3 at concrete inputs on both paths. -/
theorem C3_amended_register_witness :
    (∃ node cred,
      (handleRegister envNoParent initialWorld connDev (regJson ⟨"dev-1"⟩) false).2 =
        [.resp "conn-dev" "register_resp"
          { code := 1, msg := "ok", deviceID := "dev-1", nodeID := node, credential := cred }] ∧
      (handleRegister envNoParent
          (handleRegister envNoParent initialWorld connDev (regJson ⟨"dev-1"⟩) false).1 connDev2
          (regJson ⟨"dev-1"⟩) false).2 =
        [.resp "conn-dev2" "register_resp"
          { code := 1, msg := "ok", deviceID := "dev-1", nodeID := node, credential := cred }]) ∧
    (∃ node cred,
      (authHandleRegister specStoreImpl {} [] connDev (regJson ⟨"dev-1"⟩) true).2.2 =
        [.resp "conn-dev" "assist_register_resp"
          { code := 1, msg := "ok", deviceID := "dev-1", nodeID := node, credential := cred }] ∧
      (authHandleRegister specStoreImpl
          (authHandleRegister specStoreImpl {} [] connDev (regJson ⟨"dev-1"⟩) true).1
          (authHandleRegister specStoreImpl {} [] connDev (regJson ⟨"dev-1"⟩) true).2.1 connDev2
          (regJson ⟨"dev-1"⟩) true).2.2 =
        [.resp "conn-dev2" "assist_register_resp"
          { code := 1, msg := "ok", deviceID := "dev-1", nodeID := node, credential := cred }]) :=
  ⟨C3_amended_register_stability.1 envNoParent initialWorld connDev connDev2 "dev-1"
     (by decide) rfl rfl rfl rfl (by intro n h; exact absurd h (by decide : ¬("cred" : String) = "")),
   C3_amended_register_stability.2 {} [] connDev connDev2 "dev-1" (by decide)⟩

end MyFlowHub
